import Mathlib

/-!
Shallow embedding of `internal/impl/nats/input_jetstream.go` (the
`nats_jetstream` input: `jetStreamReader` and its helpers), together with
proofs of the specification claims about it.

Go machine integers are modelled as `Int`/`Nat` with explicit wrapping where
the source converts between widths; fallible Go calls are modelled with
`Except`/`Option`; the external NATS client library (connections, sessions,
subscriptions, the broker) is modelled as an environment of call results, and
side effects on the broker (Ack/Nak/Drain/Close calls) are recorded in an
explicit event trace.
-/

deriving instance DecidableEq for Except

namespace JetStream

/-- Go `error` values that appear in `input_jetstream.go`.  `natsTimeout` is
`nats.ErrTimeout`, `deadlineExceeded` is `context.DeadlineExceeded`,
`errNotConnected` is `service.ErrNotConnected`, `ctxCanceled` is the value of
`ctx.Err()` for a canceled context; `other` covers every remaining error. -/
inductive GoErr where
  | natsTimeout
  | deadlineExceeded
  | errNotConnected
  | ctxCanceled
  | other (msg : String)
deriving DecidableEq, Repr

/-- `errors.Is(err, nats.ErrTimeout) || errors.Is(err, context.DeadlineExceeded)`
from the fetch-error branch of `ReadBatch`. -/
def GoErr.isFetchTimeout : GoErr → Bool
  | .natsTimeout => true
  | .deadlineExceeded => true
  | _ => false

/-- `nats.MsgMetadata` (the part `convertMessage` reads).  The sequence and
count fields are `uint64` in the client library, modelled as `Nat`;
`timestampUnixNano` is the `int64` returned by `Timestamp.UnixNano()`. -/
structure MsgMetadata where
  sequenceStream : Nat
  sequenceConsumer : Nat
  numDelivered : Nat
  numPending : Nat
  domain : String
  timestampUnixNano : Int
deriving DecidableEq, Repr

/-- A delivered `*nats.Msg`.  `metadata` is the result of `m.Metadata()`;
`header` is the `nats.Header` map as an association list (key to value list,
`Header.Get` returns the first value); `ackErr` / `nakErr` are the results the
broker returns for `m.Ack()` / `m.Nak()` on this message. -/
structure NatsMsg where
  subject : String
  data : List UInt8
  metadata : Except GoErr MsgMetadata
  header : List (String × List String)
  ackErr : Option GoErr
  nakErr : Option GoErr
deriving DecidableEq, Repr

/-- `Header.Get k`: first value stored under `k`, `""` when absent/empty. -/
def headerGet (h : List (String × List String)) (k : String) : String :=
  match h.lookup k with
  | some (v :: _) => v
  | _ => ""

/-- Go `int` is 64-bit here; `int(u)` for a `uint64` `u` wraps into
`[-2^63, 2^63)`. -/
def intOfUInt64 (n : Nat) : Int :=
  if n % 2 ^ 64 < 2 ^ 63 then (n % 2 ^ 64 : Int) else (n % 2 ^ 64 : Int) - 2 ^ 64

/-- `strconv.Itoa`. -/
def itoa (n : Int) : String := toString n

/-- One `msg.MetaSet(key, value)` call. -/
structure MetaSet where
  key : String
  value : String
deriving DecidableEq, Repr

/-- The six reserved delivery-metadata `MetaSet` calls made by
`convertMessage` when `m.Metadata()` succeeds. -/
def metadataFields (md : MsgMetadata) : List MetaSet :=
  [ ⟨"nats_sequence_stream", itoa (intOfUInt64 md.sequenceStream)⟩,
    ⟨"nats_sequence_consumer", itoa (intOfUInt64 md.sequenceConsumer)⟩,
    ⟨"nats_num_delivered", itoa (intOfUInt64 md.numDelivered)⟩,
    ⟨"nats_num_pending", itoa (intOfUInt64 md.numPending)⟩,
    ⟨"nats_domain", md.domain⟩,
    ⟨"nats_timestamp_unix_nano", itoa md.timestampUnixNano⟩ ]

/-- The header-copy loop of `convertMessage`: for each key of `m.Header`,
`MetaSet(k, Header.Get k)` when the value is non-empty.  (Go map iteration
order is unspecified; the association-list order stands in for one order.) -/
def headerFields (h : List (String × List String)) : List MetaSet :=
  (h.map (fun kv => MetaSet.mk kv.1 (headerGet h kv.1))).filter
    (fun f => f.value ≠ "")

/-- The message envelope built by `convertMessage`: the payload handed to
`service.NewMessage` and the ordered list of `MetaSet` calls performed. -/
structure Envelope where
  payload : List UInt8
  metaSets : List MetaSet
deriving DecidableEq, Repr

/-- `convertMessage` from `input_jetstream.go`: payload is `m.Data`;
always `MetaSet("nats_subject", m.Subject)`; on `m.Metadata()` success the six
delivery-metadata fields; then the non-empty header values. -/
def convertMessage (m : NatsMsg) : Envelope :=
  { payload := m.data
    metaSets :=
      MetaSet.mk "nats_subject" m.subject ::
        (match m.metadata with
          | .ok md => metadataFields md
          | .error _ => []) ++ headerFields m.header }

/-- A broker call made by an ack handle. -/
inductive AckCall where
  | ack (m : NatsMsg)
  | nak (m : NatsMsg)
deriving DecidableEq, Repr

/-- The commit path of the pull-mode ack handle (`err == nil` branch):
`for _, v := range msgs { if err = v.Ack(); err != nil { return err } }`.
Returns the handle's result and the ordered trace of `Ack` calls made. -/
def ackLoop : List NatsMsg → Option GoErr × List AckCall
  | [] => (none, [])
  | m :: ms =>
    match m.ackErr with
    | some e => (some e, [.ack m])
    | none =>
      let r := ackLoop ms
      (r.1, .ack m :: r.2)

/-- The abort path of the pull-mode ack handle (`err != nil` branch), calling
`v.Nak()` on each message and stopping at the first error. -/
def nakLoop : List NatsMsg → Option GoErr × List AckCall
  | [] => (none, [])
  | m :: ms =>
    match m.nakErr with
    | some e => (some e, [.nak m])
    | none =>
      let r := nakLoop ms
      (r.1, .nak m :: r.2)

/-- The ack handle returned with a pull-mode batch: the closure
`func(ctx, err) { if err != nil { nak loop } ; ack loop }` over the fetched
`msgs`.  The argument is `some e` for a non-nil `err`. -/
def pullAckFn (msgs : List NatsMsg) (arg : Option GoErr) :
    Option GoErr × List AckCall :=
  match arg with
  | some _ => nakLoop msgs
  | none => ackLoop msgs

/-- The ack handle returned with a push-mode batch: the closure
`func(ctx, err) { if err != nil { return nmsg.Nak() }; return nmsg.Ack() }`. -/
def pushAckFn (nmsg : NatsMsg) (arg : Option GoErr) :
    Option GoErr × List AckCall :=
  match arg with
  | some _ => (nmsg.nakErr, [.nak nmsg])
  | none => (nmsg.ackErr, [.ack nmsg])

/-- Push-mode branch of `ReadBatch` (`!j.pull`): the result of
`natsSub.NextMsgWithContext(ctx)` decides everything.  On success the batch is
the single converted message plus its ack handle (represented by the captured
`nmsg`). -/
def readBatchPush (next : Except GoErr NatsMsg) :
    Except GoErr (List Envelope × NatsMsg) :=
  match next with
  | .error e => .error e
  | .ok nmsg => .ok ([convertMessage nmsg], nmsg)

/-- One iteration of the pull-mode fetch loop of `ReadBatch`:
`fetch` is the result of `natsSub.Fetch(1, nats.Context(ctx), nats.MaxWait(500ms))`
at this attempt, and `ctxErr` is `some (ctx.Err())` exactly when the caller's
context is done at the `select` check of this iteration. -/
structure FetchAttempt where
  fetch : Except GoErr (List NatsMsg)
  ctxErr : Option GoErr
deriving DecidableEq, Repr

/-- What a run of the pull-mode loop produces.  `batch` carries the converted
envelopes and the `msgs` captured by the ack handle; `exhausted` means the
loop would keep iterating past the modelled attempts. -/
inductive PullOutcome where
  | batch (envs : List Envelope) (msgs : List NatsMsg)
  | fail (e : GoErr)
  | exhausted
deriving DecidableEq, Repr

/-- The pull-mode `for {}` loop of `ReadBatch`, run over an explicit list of
attempt results, also counting how many `Fetch` calls it makes.  Per the
source: a fetch error that is `nats.ErrTimeout` or `context.DeadlineExceeded`
checks `ctx.Done()` — done means return `ctx.Err()`, otherwise `continue`;
any other fetch error returns immediately; an empty `msgs` slice with a nil
error `continue`s; a non-empty slice is converted into a batch. -/
def readBatchPullLoop : List FetchAttempt → PullOutcome × Nat
  | [] => (.exhausted, 0)
  | a :: rest =>
    match a.fetch with
    | .error e =>
      if e.isFetchTimeout then
        match a.ctxErr with
        | some ce => (.fail ce, 1)
        | none =>
          let r := readBatchPullLoop rest
          (r.1, r.2 + 1)
      else (.fail e, 1)
    | .ok msgs =>
      if msgs.isEmpty then
        let r := readBatchPullLoop rest
        (r.1, r.2 + 1)
      else (.batch (msgs.map convertMessage) msgs, 1)

/-- The `deliver` subscription option chosen by `newJetStreamReaderFromConfig`
(`nats.DeliverAll()` and friends). -/
inductive DeliverOpt where
  | all
  | last
  | lastPerSubject
  | new
deriving DecidableEq, Repr

/-- A `*nats.Conn` handle. -/
structure Conn where
  id : Nat
deriving DecidableEq, Repr

/-- A `*nats.Subscription` handle. -/
structure Sub where
  id : Nat
deriving DecidableEq, Repr

/-- The fields of `jetStreamReader`.  `natsConn`/`natsSub` are the
mutex-guarded handle fields; `ackWait` is the parsed duration in
nanoseconds. -/
structure JetStreamReader where
  deliverOpt : DeliverOpt
  subject : String
  queue : String
  stream : String
  bind : Bool
  pull : Bool
  durable : String
  ackWait : Int
  maxAckPending : Int
  natsConn : Option Conn
  natsSub : Option Sub
deriving DecidableEq, Repr

/-- The parsed configuration consumed by `newJetStreamReaderFromConfig`.
`connDetails` is the result of `connectionDetailsFromParsed` (an external
collaborator); an `Option` field is `none` when `conf.Contains` is false for
it; `ackWaitParsed` is the result of `time.ParseDuration conf.ackWaitStr`
(external collaborator, nanoseconds). -/
structure ParsedConfig where
  connDetails : Except GoErr Unit
  deliver : String
  subject : Option String
  queue : Option String
  durable : Option String
  stream : Option String
  bind : Option Bool
  ackWaitStr : String
  ackWaitParsed : Except String Int
  maxAckPending : Int
deriving DecidableEq, Repr

/-- The `switch deliver` statement of `newJetStreamReaderFromConfig`. -/
def deliverOptOf (s : String) : Except GoErr DeliverOpt :=
  if s = "all" then .ok .all
  else if s = "last" then .ok .last
  else if s = "last_per_subject" then .ok .lastPerSubject
  else if s = "new" then .ok .new
  else .error (.other ("deliver option " ++ s ++ " was not recognised"))

/-- The ack-wait block of `newJetStreamReaderFromConfig`: a non-empty
`ack_wait` string must parse as a duration or construction fails; an empty
one leaves the zero value. -/
def parseAckWait (conf : ParsedConfig) : Except GoErr Int :=
  if conf.ackWaitStr = "" then .ok 0
  else
    match conf.ackWaitParsed with
    | .error e => .error (.other ("failed to parse ack wait duration: " ++ e))
    | .ok d => .ok d

/-- `newJetStreamReaderFromConfig`: construction from configuration.  Follows
the source order: connection details, deliver switch, optional fields
(absent fields keep Go's zero value), the two bind validations, ack-wait
parsing, max_ack_pending.  It takes no broker environment: no network call
is involved. -/
def newJetStreamReaderFromConfig (conf : ParsedConfig) :
    Except GoErr JetStreamReader :=
  match conf.connDetails with
  | .error e => .error e
  | .ok _ =>
    match deliverOptOf conf.deliver with
    | .error e => .error e
    | .ok deliverOpt =>
      let subject := conf.subject.getD ""
      let queue := conf.queue.getD ""
      let durable := conf.durable.getD ""
      let stream := conf.stream.getD ""
      let bind := conf.bind.getD false
      if bind ∧ stream = "" ∧ durable = "" then
        .error (.other "stream or durable is required, when bind is true")
      else if ¬bind ∧ subject = "" ∧ stream = "" then
        .error (.other "subject and stream is empty")
      else
        match parseAckWait conf with
        | .error e => .error e
        | .ok ackWait =>
          .ok
            { deliverOpt, subject, queue, stream, bind, pull := false, durable,
              ackWait, maxAckPending := conf.maxAckPending,
              natsConn := none, natsSub := none }

/-- `info.Config`, the part of `jetStreamConsumerInfo` that `Connect` reads. -/
structure ConsumerInfo where
  deliverSubject : String
  filterSubject : String
deriving DecidableEq, Repr

/-- Subscription options (`nats.SubOpt`) accumulated by `Connect`. -/
inductive SubOpt where
  | manualAck
  | bind (stream durable : String)
  | durable (name : String)
  | deliver (d : DeliverOpt)
  | ackWait (ns : Int)
  | maxAckPending (n : Int)
  | bindStream (stream : String)
deriving DecidableEq, Repr

/-- Results the external NATS client returns to `Connect`'s calls:
`getConn` is `j.connDetails.get(ctx)`, `jetStream` is `natsConn.JetStream()`,
`consumerInfo` is `jCtx.ConsumerInfo(stream, durable)`, and the three
subscribe functions are `jCtx.PullSubscribe` / `jCtx.SubscribeSync` /
`jCtx.QueueSubscribeSync`. -/
structure Env where
  getConn : Except GoErr Conn
  jetStream : Except GoErr Unit
  consumerInfo : String → String → Except GoErr ConsumerInfo
  pullSubscribe : String → String → List SubOpt → Except GoErr Sub
  subscribeSync : String → List SubOpt → Except GoErr Sub
  queueSubscribeSync : String → String → List SubOpt → Except GoErr Sub

/-- Calls the reader makes on the client library, recorded in order. -/
inductive Ev where
  | getConn
  | jetStreamOpen
  | consumerInfo (stream durable : String)
  | pullSubscribe (subject durable : String) (opts : List SubOpt)
  | subscribeSync (subject : String) (opts : List SubOpt)
  | queueSubscribeSync (subject queue : String) (opts : List SubOpt)
  | drainSub (s : Sub)
  | closeConn (c : Conn)
deriving DecidableEq, Repr

/-- The deferred rollback in `Connect`: on error, drain the local `natsSub`
if it was created and close the local `natsConn` if it was created. -/
def rollback (sub : Option Sub) (conn : Option Conn) : List Ev :=
  (match sub with
    | some s => [Ev.drainSub s]
    | none => []) ++
  (match conn with
    | some c => [Ev.closeConn c]
    | none => [])

/-- The `if j.subject == ""` block plus the `j.pull` assignment that `Connect`
runs on a successful `ConsumerInfo` fetch. -/
def resolveConsumer (info : ConsumerInfo) (j : JetStreamReader) :
    JetStreamReader :=
  let j1 :=
    if j.subject = "" then
      if info.deliverSubject ≠ "" then { j with subject := info.deliverSubject }
      else if info.filterSubject ≠ "" then { j with subject := info.filterSubject }
      else j
    else j
  { j1 with pull := info.deliverSubject = "" }

/-- The consumer-resolution step of `Connect`: guarded by
`j.bind && j.stream != "" && j.durable != ""`; a failed fetch aborts. -/
def connectResolve (env : Env) (j : JetStreamReader) :
    Except GoErr JetStreamReader × List Ev :=
  if j.bind ∧ j.stream ≠ "" ∧ j.durable ≠ "" then
    match env.consumerInfo j.stream j.durable with
    | .error e => (.error e, [.consumerInfo j.stream j.durable])
    | .ok info => (.ok (resolveConsumer info j), [.consumerInfo j.stream j.durable])
  else (.ok j, [])

/-- The option building and subscription opening of `Connect`, after
resolution: pull mode binds stream/durable and pull-subscribes; push mode
attaches durable, deliver policy, ack wait, max pending and stream binding,
then opens a plain or queue subscription. -/
def connectSubscribe (env : Env) (j : JetStreamReader) :
    Except GoErr Sub × List Ev :=
  if j.pull then
    let options := [SubOpt.manualAck, SubOpt.bind j.stream j.durable]
    (env.pullSubscribe j.subject j.durable options,
      [.pullSubscribe j.subject j.durable options])
  else
    let options :=
      [SubOpt.manualAck] ++
        (if j.durable ≠ "" then [SubOpt.durable j.durable] else []) ++
        [SubOpt.deliver j.deliverOpt] ++
        (if j.ackWait > 0 then [SubOpt.ackWait j.ackWait] else []) ++
        (if j.maxAckPending ≠ 0 then [SubOpt.maxAckPending j.maxAckPending]
         else []) ++
        (if j.bind ∧ j.stream ≠ "" ∧ j.durable ≠ "" then
          [SubOpt.bind j.stream j.durable]
         else if j.stream ≠ "" then [SubOpt.bindStream j.stream] else [])
    if j.queue = "" then
      (env.subscribeSync j.subject options, [.subscribeSync j.subject options])
    else
      (env.queueSubscribeSync j.subject j.queue options,
        [.queueSubscribeSync j.subject j.queue options])

/-- `Connect`: returns the call's result, the reader state after the call
(the receiver's fields after the mutations `Connect` performs), and the trace
of client-library calls.  If a connection handle is already stored it returns
nil immediately.  On any later failure the deferred `rollback` runs and the
handle fields stay unset; on success both handles are stored together. -/
def connect (env : Env) (j : JetStreamReader) :
    Except GoErr Unit × JetStreamReader × List Ev :=
  if j.natsConn.isSome then (.ok (), j, [])
  else
    match env.getConn with
    | .error e => (.error e, j, [.getConn] ++ rollback none none)
    | .ok natsConn =>
      match env.jetStream with
      | .error e =>
        (.error e, j, [.getConn, .jetStreamOpen] ++ rollback none (some natsConn))
      | .ok _ =>
        match connectResolve env j with
        | (.error e, tr) =>
          (.error e, j,
            [Ev.getConn, Ev.jetStreamOpen] ++ tr ++ rollback none (some natsConn))
        | (.ok j2, tr) =>
          match connectSubscribe env j2 with
          | (.error e, tr2) =>
            (.error e, j2,
              [Ev.getConn, Ev.jetStreamOpen] ++ tr ++ tr2 ++
                rollback none (some natsConn))
          | (.ok natsSub, tr2) =>
            (.ok (),
              { j2 with natsConn := some natsConn, natsSub := some natsSub },
              [Ev.getConn, Ev.jetStreamOpen] ++ tr ++ tr2)

/-- `disconnect`: drain and clear the subscription handle if present, close
and clear the connection handle if present. -/
def disconnect (j : JetStreamReader) : JetStreamReader × List Ev :=
  ({ j with natsSub := none, natsConn := none },
    (match j.natsSub with
      | some s => [Ev.drainSub s]
      | none => []) ++
    (match j.natsConn with
      | some c => [Ev.closeConn c]
      | none => []))

/-- A lifecycle operation on the reader. -/
inductive Op where
  | connectOp (env : Env)
  | disconnectOp

/-- Apply one lifecycle operation to the reader state. -/
def applyOp (j : JetStreamReader) : Op → JetStreamReader
  | .connectOp env => (connect env j).2.1
  | .disconnectOp => (disconnect j).1

/-- Run a sequence of lifecycle operations. -/
def runOps (j : JetStreamReader) : List Op → JetStreamReader
  | [] => j
  | op :: ops => runOps (applyOp j op) ops

/-- The handle invariant: never a subscription handle without a connection
handle. -/
def handleInv (j : JetStreamReader) : Prop :=
  j.natsSub.isSome → j.natsConn.isSome

instance (j : JetStreamReader) : Decidable (handleInv j) := by
  unfold handleInv; infer_instance

/-- Subscription-open calls in a trace (`PullSubscribe`, `SubscribeSync`,
`QueueSubscribeSync`). -/
def Ev.isSubscribeOpen : Ev → Bool
  | .pullSubscribe .. => true
  | .subscribeSync .. => true
  | .queueSubscribeSync .. => true
  | _ => false

/-- Number of subscription-open calls in a trace. -/
def subscribeOpens (tr : List Ev) : Nat :=
  (tr.filter Ev.isSubscribeOpen).length

/-- The value of `Connect`'s local `natsSub` variable at function exit: a
subscription handle exists only once the subscribe call has succeeded (the
last fallible step). -/
def connectCreatedSub (env : Env) (j : JetStreamReader) : Option Sub :=
  if j.natsConn.isSome then none
  else
    match env.getConn with
    | .error _ => none
    | .ok _ =>
      match env.jetStream with
      | .error _ => none
      | .ok _ =>
        match connectResolve env j with
        | (.error _, _) => none
        | (.ok j2, _) =>
          match connectSubscribe env j2 with
          | (.error _, _) => none
          | (.ok s, _) => some s

/-- A concrete all-succeeding client environment whose bound consumer has no
push-delivery subject and filter subject `"orders.*"` (used to instantiate
theorems). -/
def envPullW : Env :=
  { getConn := .ok ⟨1⟩
    jetStream := .ok ()
    consumerInfo := fun _ _ => .ok ⟨"", "orders.*"⟩
    pullSubscribe := fun _ _ _ => .ok ⟨2⟩
    subscribeSync := fun _ _ => .ok ⟨3⟩
    queueSubscribeSync := fun _ _ _ => .ok ⟨4⟩ }

/-- A concrete environment in which opening the pull subscription fails. -/
def envSubFailW : Env :=
  { envPullW with
    pullSubscribe := fun _ _ _ => .error (.other "sub failed") }

/-- A concrete reader spec binding stream `"ORDERS"` / durable `"dur"` with no
subject configured, as `newJetStreamReaderFromConfig` would produce it. -/
def jBoundW : JetStreamReader :=
  { deliverOpt := .all, subject := "", queue := "", stream := "ORDERS",
    bind := true, pull := false, durable := "dur", ackWait := 30000000000,
    maxAckPending := 1024, natsConn := none, natsSub := none }

/-- The reader `jBoundW` with both handles stored (a Connected state). -/
def jConnW : JetStreamReader :=
  { jBoundW with natsConn := some ⟨1⟩, natsSub := some ⟨2⟩ }

/-- A concrete parsed configuration for the bound reader `jBoundW`. -/
def confW : ParsedConfig :=
  { connDetails := .ok (), deliver := "all", subject := none, queue := none,
    durable := some "dur", stream := some "ORDERS", bind := some true,
    ackWaitStr := "30s", ackWaitParsed := .ok 30000000000,
    maxAckPending := 1024 }

/-- A concrete lifecycle history: connect, disconnect, then a connect whose
subscription open fails. -/
def opsW : List Op :=
  [.connectOp envPullW, .disconnectOp, .connectOp envSubFailW]

/-- A concrete invalid configuration: bind set with stream and durable both
absent. -/
def confBadW : ParsedConfig :=
  { connDetails := .ok (), deliver := "all", subject := some "foo.bar",
    queue := none, durable := none, stream := none, bind := some true,
    ackWaitStr := "", ackWaitParsed := .error "empty", maxAckPending := 0 }

/-- A delivered message whose stream sequence is `2 ^ 63`, a valid `uint64`
counter value. -/
def msgBigSeqW : NatsMsg :=
  { subject := "orders.1", data := [],
    metadata := .ok
      { sequenceStream := 2 ^ 63, sequenceConsumer := 1, numDelivered := 1,
        numPending := 0, domain := "hub",
        timestampUnixNano := 1700000000000000000 },
    header := [], ackErr := none, nakErr := none }

/-- A delivered message for which `m.Metadata()` fails, carrying one
non-empty and one empty header value. -/
def msgNoMetaW : NatsMsg :=
  { subject := "orders.2", data := [104, 105],
    metadata := .error (.other "not a jetstream message"),
    header := [("Trace-Id", ["abc"]), ("Empty", [""])],
    ackErr := none, nakErr := none }

/-! ## Theorems -/

lemma ackLoop_spec (msgs : List NatsMsg) :
    ackLoop msgs =
      ((msgs.get? (msgs.findIdx fun m => m.ackErr.isSome)).bind NatsMsg.ackErr,
        (msgs.take (msgs.findIdx (fun m => m.ackErr.isSome) + 1)).map
          AckCall.ack) := by
  induction msgs with
  | nil => simp [ackLoop]
  | cons m ms ih =>
    cases h : m.ackErr with
    | some e => simp [ackLoop, h, List.findIdx_cons]
    | none => simp [ackLoop, h, List.findIdx_cons, ih]

lemma nakLoop_spec (msgs : List NatsMsg) :
    nakLoop msgs =
      ((msgs.get? (msgs.findIdx fun m => m.nakErr.isSome)).bind NatsMsg.nakErr,
        (msgs.take (msgs.findIdx (fun m => m.nakErr.isSome) + 1)).map
          AckCall.nak) := by
  induction msgs with
  | nil => simp [nakLoop]
  | cons m ms ih =>
    cases h : m.nakErr with
    | some e => simp [nakLoop, h, List.findIdx_cons]
    | none => simp [nakLoop, h, List.findIdx_cons, ih]

/-- C5: a batch ack handle invoked with `none` (nil error) acknowledges the
messages in batch order and stops at the first `Ack` error, which it returns,
leaving the remaining messages untouched (the call trace covers exactly the
prefix up to and including the first failing message; it is all of the batch,
with result `none`, when every call succeeds); invoked with a non-nil error
it negative-acknowledges in order with the same first-error cutoff.  The
push-mode handle coincides with the batch handle on its singleton batch. -/
theorem ackHandle_first_error (msgs : List NatsMsg) :
    (pullAckFn msgs none =
      ((msgs.get? (msgs.findIdx fun m => m.ackErr.isSome)).bind NatsMsg.ackErr,
        (msgs.take (msgs.findIdx (fun m => m.ackErr.isSome) + 1)).map
          AckCall.ack)) ∧
    (∀ e, pullAckFn msgs (some e) =
      ((msgs.get? (msgs.findIdx fun m => m.nakErr.isSome)).bind NatsMsg.nakErr,
        (msgs.take (msgs.findIdx (fun m => m.nakErr.isSome) + 1)).map
          AckCall.nak)) ∧
    (∀ m, pushAckFn m none = pullAckFn [m] none) ∧
    (∀ m e, pushAckFn m (some e) = pullAckFn [m] (some e)) := by
  refine ⟨ackLoop_spec msgs, fun e => nakLoop_spec msgs, fun m => ?_,
    fun m e => ?_⟩
  · cases h : m.ackErr <;> simp [pushAckFn, pullAckFn, ackLoop, h]
  · cases h : m.nakErr <;> simp [pushAckFn, pullAckFn, nakLoop, h]

/-- C8: in push mode a delivery yields a batch of exactly one message, and
the ack handle touches exactly that broker message — one `Ack` call for a nil
argument, one `Nak` call for a non-nil argument. -/
theorem readBatch_push_single (m : NatsMsg) :
    (∃ b, readBatchPush (.ok m) = .ok (b, m) ∧ b.length = 1) ∧
    (pushAckFn m none).2 = [AckCall.ack m] ∧
    ∀ e, (pushAckFn m (some e)).2 = [AckCall.nak m] := by
  exact ⟨⟨[convertMessage m], rfl, rfl⟩, rfl, fun e => rfl⟩

/-- C1: in the pull-mode fetch loop, a fetch attempt failing with
`nats.ErrTimeout` or `context.DeadlineExceeded` returns the caller context's
cancellation error — after exactly this one fetch call, whatever attempts
would follow — when that context is done, and otherwise retries immediately
surfacing no error for the attempt; any other fetch error is returned
immediately with no retry. -/
theorem readBatch_pull_error_handling (a : FetchAttempt)
    (rest : List FetchAttempt) (e : GoErr) (hf : a.fetch = .error e) :
    (∀ ce, e.isFetchTimeout = true → a.ctxErr = some ce →
      readBatchPullLoop (a :: rest) = (.fail ce, 1)) ∧
    (e.isFetchTimeout = true → a.ctxErr = none →
      readBatchPullLoop (a :: rest) =
        ((readBatchPullLoop rest).1, (readBatchPullLoop rest).2 + 1)) ∧
    (e.isFetchTimeout = false →
      readBatchPullLoop (a :: rest) = (.fail e, 1)) := by
  refine ⟨fun ce ht hc => ?_, fun ht hc => ?_, fun ht => ?_⟩
  · simp [readBatchPullLoop, hf, ht, hc]
  · simp [readBatchPullLoop, hf, ht, hc]
  · simp [readBatchPullLoop, hf, ht]

/-- Witness for C1 at concrete attempts: a timeout with the context already
canceled returns the cancellation error after one fetch; three broker
timeouts under a live context surface no error and leave the loop still
fetching (a fourth attempt would run); a non-timeout error propagates at
once. -/
theorem readBatch_pull_error_handling_witness :
    readBatchPullLoop [⟨.error .natsTimeout, some .ctxCanceled⟩] =
      (.fail .ctxCanceled, 1) ∧
    readBatchPullLoop
        (⟨.error .natsTimeout, none⟩ ::
          [⟨.error .deadlineExceeded, none⟩, ⟨.error .natsTimeout, none⟩]) =
      (.exhausted, 3) ∧
    readBatchPullLoop [⟨.error (.other "subscription closed"), none⟩] =
      (.fail (.other "subscription closed"), 1) := by
  refine ⟨(readBatch_pull_error_handling _ [] .natsTimeout rfl).1
    .ctxCanceled rfl rfl, ?_, (readBatch_pull_error_handling _ []
    (.other "subscription closed") rfl).2.2 rfl⟩
  have h := (readBatch_pull_error_handling
    ⟨.error .natsTimeout, none⟩
    [⟨.error .deadlineExceeded, none⟩, ⟨.error .natsTimeout, none⟩]
    .natsTimeout rfl).2.1 rfl rfl
  rw [h]; decide

lemma resolveConsumer_pull (info : ConsumerInfo) (j : JetStreamReader) :
    (resolveConsumer info j).pull = decide (info.deliverSubject = "") := rfl

lemma resolveConsumer_subject (info : ConsumerInfo) (j : JetStreamReader) :
    (resolveConsumer info j).subject =
      (if j.subject = "" then
        (if info.deliverSubject ≠ "" then info.deliverSubject
         else if info.filterSubject ≠ "" then info.filterSubject
         else j.subject)
       else j.subject) := by
  unfold resolveConsumer
  split_ifs <;> rfl

lemma resolveConsumer_natsConn (info : ConsumerInfo) (j : JetStreamReader) :
    (resolveConsumer info j).natsConn = j.natsConn := by
  unfold resolveConsumer
  split_ifs <;> rfl

lemma resolveConsumer_natsSub (info : ConsumerInfo) (j : JetStreamReader) :
    (resolveConsumer info j).natsSub = j.natsSub := by
  unfold resolveConsumer
  split_ifs <;> rfl

lemma connectResolve_ok_handles (env : Env) (j j2 : JetStreamReader)
    (tr : List Ev) (h : connectResolve env j = (.ok j2, tr)) :
    j2.natsConn = j.natsConn ∧ j2.natsSub = j.natsSub := by
  unfold connectResolve at h
  split at h
  · rcases hinfo : env.consumerInfo j.stream j.durable with e | info <;>
      rw [hinfo] at h
    · simp at h
    · simp only [Prod.mk.injEq, Except.ok.injEq] at h
      rw [← h.1]
      exact ⟨resolveConsumer_natsConn info j, resolveConsumer_natsSub info j⟩
  · simp only [Prod.mk.injEq, Except.ok.injEq] at h
    rw [← h.1]
    exact ⟨rfl, rfl⟩

/-- C2: in a `Connect` call that binds to a named consumer (bind set, stream
and durable non-empty) whose consumer-info fetch succeeds, the resolved mode
is pull exactly when the consumer's push-delivery subject is empty, and an
empty spec subject is filled from the push-delivery subject when non-empty,
else from the filter subject when non-empty, while a non-empty spec subject
is never overwritten; a failed fetch makes `Connect` fail with that error. -/
theorem connect_bind_resolution (env : Env) (j : JetStreamReader) (c : Conn)
    (hc : j.natsConn = none) (hb : j.bind = true) (hs : j.stream ≠ "")
    (hd : j.durable ≠ "") (hg : env.getConn = .ok c)
    (hjs : env.jetStream = .ok ()) :
    (∀ info, env.consumerInfo j.stream j.durable = .ok info →
      ((connect env j).2.1.pull = true ↔ info.deliverSubject = "") ∧
      (connect env j).2.1.subject =
        (if j.subject = "" then
          (if info.deliverSubject ≠ "" then info.deliverSubject
           else if info.filterSubject ≠ "" then info.filterSubject
           else j.subject)
         else j.subject)) ∧
    (∀ e, env.consumerInfo j.stream j.durable = .error e →
      (connect env j).1 = .error e) := by
  constructor
  · intro info hinfo
    have hres : connectResolve env j =
        (.ok (resolveConsumer info j), [.consumerInfo j.stream j.durable]) := by
      simp [connectResolve, hb, hs, hd, hinfo]
    rcases hsub : connectSubscribe env (resolveConsumer info j) with ⟨r, tr2⟩
    cases r with
    | error e =>
      simp only [connect, hc, Option.isSome_none, Bool.false_eq_true,
        if_false, hg, hjs, hres, hsub]
      rw [resolveConsumer_pull, resolveConsumer_subject]
      simp
    | ok s =>
      simp only [connect, hc, Option.isSome_none, Bool.false_eq_true,
        if_false, hg, hjs, hres, hsub]
      rw [resolveConsumer_pull, resolveConsumer_subject]
      simp
  · intro e herr
    have hres : connectResolve env j =
        (.error e, [.consumerInfo j.stream j.durable]) := by
      simp [connectResolve, hb, hs, hd, herr]
    simp [connect, hc, hg, hjs, hres]

/-- Witness for C2 at a concrete bound reader and broker: the consumer
exposes no push-delivery subject and filter subject `"orders.*"`, so the
resolved mode is pull and the effective subject is `"orders.*"`. -/
theorem connect_bind_resolution_witness :
    (connect envPullW jBoundW).2.1.pull = true ∧
    (connect envPullW jBoundW).2.1.subject = "orders.*" := by
  have h := (connect_bind_resolution envPullW jBoundW ⟨1⟩ rfl rfl (by decide)
    (by decide) rfl rfl).1 ⟨"", "orders.*"⟩ rfl
  exact ⟨h.1.mpr rfl, by rw [h.2]; decide⟩

/-- C3: when `Connect` starts Disconnected and fails at any step, the error
is propagated, the stored handle fields are still both empty (no partial
state survives), any connection handle acquired during the call is closed,
and any subscription handle created during the call is drained. -/
theorem connect_failure_atomic (env : Env) (j : JetStreamReader) (e : GoErr)
    (hc : j.natsConn = none) (hs : j.natsSub = none)
    (herr : (connect env j).1 = .error e) :
    (connect env j).2.1.natsConn = none ∧
    (connect env j).2.1.natsSub = none ∧
    (∀ c, env.getConn = .ok c → Ev.closeConn c ∈ (connect env j).2.2) ∧
    (∀ s, connectCreatedSub env j = some s →
      Ev.drainSub s ∈ (connect env j).2.2) := by
  rcases hg : env.getConn with eg | c
  · have hco : connect env j = (.error eg, j, [.getConn]) := by
      simp [connect, hc, hg, rollback]
    refine ⟨by rw [hco]; exact hc, by rw [hco]; exact hs, ?_, ?_⟩
    · intro c hgc
      simp at hgc
    · intro s hcs
      have hnone : connectCreatedSub env j = none := by
        simp [connectCreatedSub, hc, hg]
      rw [hnone] at hcs
      simp at hcs
  · rcases hjs : env.jetStream with ejs | u
    · have hco : connect env j =
          (.error ejs, j, [.getConn, .jetStreamOpen, .closeConn c]) := by
        simp [connect, hc, hg, hjs, rollback]
      refine ⟨by rw [hco]; exact hc, by rw [hco]; exact hs, ?_, ?_⟩
      · intro c' hgc
        simp only [Except.ok.injEq] at hgc
        rw [hco, ← hgc]
        simp
      · intro s hcs
        have hnone : connectCreatedSub env j = none := by
          simp [connectCreatedSub, hc, hg, hjs]
        rw [hnone] at hcs
        simp at hcs
    · rcases hres : connectResolve env j with ⟨res, tr⟩
      cases res with
      | error er =>
        have hco : connect env j =
            (.error er, j,
              [Ev.getConn, Ev.jetStreamOpen] ++ tr ++
                rollback none (some c)) := by
          simp [connect, hc, hg, hjs, hres]
        refine ⟨by rw [hco]; exact hc, by rw [hco]; exact hs, ?_, ?_⟩
        · intro c' hgc
          simp only [Except.ok.injEq] at hgc
          rw [hco, ← hgc]
          simp [rollback]
        · intro s hcs
          have hnone : connectCreatedSub env j = none := by
            simp [connectCreatedSub, hc, hg, hjs, hres]
          rw [hnone] at hcs
          simp at hcs
      | ok j2 =>
        have hh := connectResolve_ok_handles env j j2 tr hres
        rcases hsub : connectSubscribe env j2 with ⟨sres, tr2⟩
        cases sres with
        | error es =>
          have hco : connect env j =
              (.error es, j2,
                [Ev.getConn, Ev.jetStreamOpen] ++ tr ++ tr2 ++
                  rollback none (some c)) := by
            simp [connect, hc, hg, hjs, hres, hsub]
          refine ⟨by rw [hco]; exact hh.1.trans hc,
            by rw [hco]; exact hh.2.trans hs, ?_, ?_⟩
          · intro c' hgc
            simp only [Except.ok.injEq] at hgc
            rw [hco, ← hgc]
            simp [rollback]
          · intro s hcs
            have hnone : connectCreatedSub env j = none := by
              simp [connectCreatedSub, hc, hg, hjs, hres, hsub]
            rw [hnone] at hcs
            simp at hcs
        | ok sub =>
          have hok : (connect env j).1 = .ok () := by
            simp [connect, hc, hg, hjs, hres, hsub]
          rw [hok] at herr
          simp at herr

/-- Witness for C3: with a broker that accepts the connection and session but
rejects the pull subscription, `Connect` fails, both stored handles stay
empty, and the acquired connection is closed during rollback. -/
theorem connect_failure_atomic_witness :
    (connect envSubFailW jBoundW).2.1.natsConn = none ∧
    (connect envSubFailW jBoundW).2.1.natsSub = none ∧
    Ev.closeConn ⟨1⟩ ∈ (connect envSubFailW jBoundW).2.2 := by
  have h := connect_failure_atomic envSubFailW jBoundW (.other "sub failed")
    rfl rfl (by decide)
  exact ⟨h.1, h.2.1, h.2.2.1 ⟨1⟩ rfl⟩

lemma construction_handles (conf : ParsedConfig) (r : JetStreamReader)
    (h : newJetStreamReaderFromConfig conf = .ok r) :
    r.natsConn = none ∧ r.natsSub = none := by
  simp only [newJetStreamReaderFromConfig] at h
  rcases hcd : conf.connDetails with e | u <;> simp only [hcd] at h
  · simp at h
  · rcases hdo : deliverOptOf conf.deliver with e | dopt <;>
      simp only [hdo] at h
    · simp at h
    · by_cases h1 : conf.bind.getD false = true ∧ conf.stream.getD "" = "" ∧
        conf.durable.getD "" = ""
      · rw [if_pos h1] at h
        simp at h
      · rw [if_neg h1] at h
        by_cases h2 : ¬conf.bind.getD false = true ∧
          conf.subject.getD "" = "" ∧ conf.stream.getD "" = ""
        · rw [if_pos h2] at h
          simp at h
        · rw [if_neg h2] at h
          split at h
          · simp at h
          · injection h with h
            subst h
            exact ⟨rfl, rfl⟩

lemma connectResolve_subopens (env : Env) (j : JetStreamReader) :
    subscribeOpens (connectResolve env j).2 = 0 := by
  unfold connectResolve
  split
  · rcases hinfo : env.consumerInfo j.stream j.durable with e | info <;>
      simp [subscribeOpens, Ev.isSubscribeOpen]
  · simp [subscribeOpens]

lemma connectSubscribe_subopens (env : Env) (j : JetStreamReader) :
    subscribeOpens (connectSubscribe env j).2 = 1 := by
  unfold connectSubscribe
  split_ifs <;> simp [subscribeOpens, Ev.isSubscribeOpen]

lemma connect_connected (env : Env) (j : JetStreamReader)
    (h : j.natsConn.isSome = true) : connect env j = (.ok (), j, []) := by
  simp [connect, h]

lemma connect_cases (env : Env) (j : JetStreamReader) :
    (j.natsConn.isSome = true ∧ connect env j = (.ok (), j, [])) ∨
    ((∃ e, (connect env j).1 = .error e) ∧
      (connect env j).2.1.natsConn = j.natsConn ∧
      (connect env j).2.1.natsSub = j.natsSub) ∨
    ((connect env j).1 = .ok () ∧
      (∃ c s, (connect env j).2.1.natsConn = some c ∧
        (connect env j).2.1.natsSub = some s) ∧
      subscribeOpens (connect env j).2.2 ≤ 1) := by
  by_cases hc : j.natsConn.isSome
  · exact .inl ⟨hc, by simp [connect, hc]⟩
  · have hc0 : j.natsConn = none := Option.not_isSome_iff_eq_none.mp hc
    right
    rcases hg : env.getConn with eg | c
    · have hco : connect env j = (.error eg, j, [.getConn]) := by
        simp [connect, hc0, hg, rollback]
      exact .inl ⟨⟨eg, by rw [hco]⟩, by rw [hco], by rw [hco]⟩
    · rcases hjs : env.jetStream with ejs | u
      · have hco : connect env j =
            (.error ejs, j, [.getConn, .jetStreamOpen, .closeConn c]) := by
          simp [connect, hc0, hg, hjs, rollback]
        exact .inl ⟨⟨ejs, by rw [hco]⟩, by rw [hco], by rw [hco]⟩
      · rcases hres : connectResolve env j with ⟨res, tr⟩
        cases res with
        | error er =>
          have hco : connect env j =
              (.error er, j,
                [Ev.getConn, Ev.jetStreamOpen] ++ tr ++
                  rollback none (some c)) := by
            simp [connect, hc0, hg, hjs, hres]
          exact .inl ⟨⟨er, by rw [hco]⟩, by rw [hco], by rw [hco]⟩
        | ok j2 =>
          have hh := connectResolve_ok_handles env j j2 tr hres
          rcases hsub : connectSubscribe env j2 with ⟨sres, tr2⟩
          cases sres with
          | error es =>
            have hco : connect env j =
                (.error es, j2,
                  [Ev.getConn, Ev.jetStreamOpen] ++ tr ++ tr2 ++
                    rollback none (some c)) := by
              simp [connect, hc0, hg, hjs, hres, hsub]
            exact .inl ⟨⟨es, by rw [hco]⟩, by rw [hco]; exact hh.1,
              by rw [hco]; exact hh.2⟩
          | ok sub =>
            have hco : connect env j =
                (.ok (),
                  { j2 with natsConn := some c, natsSub := some sub },
                  [Ev.getConn, Ev.jetStreamOpen] ++ tr ++ tr2) := by
              simp [connect, hc0, hg, hjs, hres, hsub]
            refine .inr ⟨by rw [hco], ⟨c, sub, by rw [hco], by rw [hco]⟩, ?_⟩
            rw [hco]
            have h1 : subscribeOpens tr = 0 := by
              have := connectResolve_subopens env j
              rw [hres] at this
              exact this
            have h2 : subscribeOpens tr2 = 1 := by
              have := connectSubscribe_subopens env j2
              rw [hsub] at this
              exact this
            have h3 : subscribeOpens ([Ev.getConn, Ev.jetStreamOpen] ++ tr ++ tr2) =
                subscribeOpens tr + subscribeOpens tr2 := by
              simp [subscribeOpens, List.filter_append, Ev.isSubscribeOpen]
            rw [h3, h1, h2]

/-- C4: `Connect` is idempotent — with a connection handle already stored it
returns success at once making no client-library calls (so no connection
acquisition, consumer lookup, or subscription open); consequently a second
`Connect` after a successful one returns success with an empty call trace,
and the two calls together open at most one subscription. -/
theorem connect_idempotent (env env2 : Env) (j : JetStreamReader) :
    (j.natsConn.isSome = true → connect env j = (.ok (), j, [])) ∧
    ((connect env j).1 = .ok () →
      connect env2 (connect env j).2.1 = (.ok (), (connect env j).2.1, []) ∧
      subscribeOpens
        ((connect env j).2.2 ++ (connect env2 (connect env j).2.1).2.2) ≤ 1) := by
  constructor
  · intro h
    simp [connect, h]
  · intro hok
    rcases connect_cases env j with ⟨hc, hco⟩ | ⟨⟨e, he⟩, _⟩ |
      ⟨_, ⟨c, s, hcs, _⟩, hsub1⟩
    · rw [hco]
      exact ⟨by simp [connect, hc], by simp [connect, hc, subscribeOpens]⟩
    · rw [hok] at he
      simp at he
    · have h2 : (connect env j).2.1.natsConn.isSome = true := by
        rw [hcs]; rfl
      have hsecond : connect env2 (connect env j).2.1 =
          (.ok (), (connect env j).2.1, []) := connect_connected env2 _ h2
      refine ⟨hsecond, ?_⟩
      rw [hsecond]
      simpa using hsub1

/-- Witness for C4: with the all-succeeding broker, a `Connect` on an
already-Connected reader is a success-returning no-op, and a second `Connect`
after a successful first one returns success with an empty trace, the pair
opening at most one subscription. -/
theorem connect_idempotent_witness :
    connect envPullW jConnW = (.ok (), jConnW, []) ∧
    connect envPullW (connect envPullW jBoundW).2.1 =
      (.ok (), (connect envPullW jBoundW).2.1, []) ∧
    subscribeOpens ((connect envPullW jBoundW).2.2 ++
      (connect envPullW (connect envPullW jBoundW).2.1).2.2) ≤ 1 := by
  have h1 := (connect_idempotent envPullW envPullW jConnW).1 (by decide)
  have h2 := (connect_idempotent envPullW envPullW jBoundW).2 (by decide)
  exact ⟨h1, h2.1, h2.2⟩

lemma connect_preserves_inv (env : Env) (j : JetStreamReader)
    (h : handleInv j) : handleInv (connect env j).2.1 := by
  rcases connect_cases env j with ⟨hc, hco⟩ | ⟨_, hcn, hsn⟩ |
    ⟨_, ⟨c, s, hcs, hss⟩, _⟩
  · rw [hco]
    exact h
  · unfold handleInv at h ⊢
    rw [hcn, hsn]
    exact h
  · unfold handleInv
    rw [hcs]
    intro
    rfl

lemma runOps_preserves_inv (ops : List Op) (j : JetStreamReader)
    (h : handleInv j) : handleInv (runOps j ops) := by
  induction ops generalizing j with
  | nil => exact h
  | cons op ops ih =>
    cases op with
    | connectOp env => exact ih _ (connect_preserves_inv env j h)
    | disconnectOp => exact ih _ (by simp [handleInv, applyOp, disconnect])

/-- C9: from any reader produced by configuration construction, every state
reachable by a sequence of `Connect` and `disconnect` operations satisfies
the handle invariant — a stored subscription handle implies a stored
connection handle (`Connect` stores both together on success only,
`disconnect` clears both). -/
theorem handle_invariant (conf : ParsedConfig) (r : JetStreamReader)
    (ops : List Op) (hr : newJetStreamReaderFromConfig conf = .ok r) :
    handleInv (runOps r ops) := by
  refine runOps_preserves_inv ops r ?_
  have hs := (construction_handles conf r hr).2
  unfold handleInv
  rw [hs]
  simp

/-- Witness for C9: the reader built from `confW`, taken through a connect,
a disconnect, and a failing connect, still satisfies the handle invariant. -/
theorem handle_invariant_witness : handleInv (runOps jBoundW opsW) :=
  handle_invariant confW jBoundW opsW (by decide)

/-- C10: a pull-mode fetch attempt returning an empty message list with a nil
error makes the loop retry immediately: the run's outcome is exactly the
outcome over the remaining attempts (so no error is surfaced and no batch is
built from this attempt), one more fetch call is counted, and the context
field of the attempt is never consulted (the equation holds for every value
of it). -/
theorem readBatch_pull_empty_fetch (rest : List FetchAttempt)
    (c : Option GoErr) :
    readBatchPullLoop (⟨.ok [], c⟩ :: rest) =
      ((readBatchPullLoop rest).1, (readBatchPullLoop rest).2 + 1) := by
  simp [readBatchPullLoop]

lemma deliverOptOf_error_iff (s : String) :
    (∃ e, deliverOptOf s = .error e) ↔
      (s ≠ "all" ∧ s ≠ "last" ∧ s ≠ "last_per_subject" ∧ s ≠ "new") := by
  unfold deliverOptOf
  split_ifs with h1 h2 h3 h4 <;> simp_all

lemma parseAckWait_ok (conf : ParsedConfig)
    (hack : conf.ackWaitStr = "" ∨ ∃ d, conf.ackWaitParsed = .ok d) :
    ∃ d, parseAckWait conf = .ok d := by
  rcases hack with ha | ⟨d, hd⟩
  · exact ⟨0, by simp [parseAckWait, ha]⟩
  · by_cases ha0 : conf.ackWaitStr = ""
    · exact ⟨0, by simp [parseAckWait, ha0]⟩
    · exact ⟨d, by simp [parseAckWait, ha0, hd]⟩

/-- C7: given that the collaborating connection details and (when non-empty)
the ack-wait duration parse, configuration construction fails exactly when
the deliver value is not one of all / last / last_per_subject / new, or bind
is set with stream and durable both empty, or bind is unset with subject and
stream both empty; in every other case it succeeds.  Construction takes no
broker environment, so no network call is involved in any failure. -/
theorem construction_validation (conf : ParsedConfig)
    (hconn : conf.connDetails = .ok ())
    (hack : conf.ackWaitStr = "" ∨ ∃ d, conf.ackWaitParsed = .ok d) :
    (∃ e, newJetStreamReaderFromConfig conf = .error e) ↔
      ((conf.deliver ≠ "all" ∧ conf.deliver ≠ "last" ∧
        conf.deliver ≠ "last_per_subject" ∧ conf.deliver ≠ "new") ∨
       (conf.bind.getD false = true ∧ conf.stream.getD "" = "" ∧
        conf.durable.getD "" = "") ∨
       (conf.bind.getD false = false ∧ conf.subject.getD "" = "" ∧
        conf.stream.getD "" = "")) := by
  by_cases hd : conf.deliver ≠ "all" ∧ conf.deliver ≠ "last" ∧
    conf.deliver ≠ "last_per_subject" ∧ conf.deliver ≠ "new"
  · obtain ⟨e, he⟩ := (deliverOptOf_error_iff conf.deliver).mpr hd
    simp only [newJetStreamReaderFromConfig, hconn, he]
    exact iff_of_true ⟨e, rfl⟩ (.inl hd)
  · rcases hdo : deliverOptOf conf.deliver with e | dopt
    · exact absurd ((deliverOptOf_error_iff _).mp ⟨e, hdo⟩) hd
    · simp only [newJetStreamReaderFromConfig, hconn, hdo]
      by_cases h1 : conf.bind.getD false = true ∧ conf.stream.getD "" = "" ∧
        conf.durable.getD "" = ""
      · rw [if_pos h1]
        exact iff_of_true ⟨_, rfl⟩ (.inr (.inl h1))
      · rw [if_neg h1]
        by_cases h2 : ¬conf.bind.getD false = true ∧
          conf.subject.getD "" = "" ∧ conf.stream.getD "" = ""
        · rw [if_pos h2]
          refine iff_of_true ⟨_, rfl⟩ (.inr (.inr ?_))
          exact ⟨by simpa using h2.1, h2.2.1, h2.2.2⟩
        · rw [if_neg h2]
          obtain ⟨d0, hd0⟩ := parseAckWait_ok conf hack
          simp only [hd0]
          refine iff_of_false (by simp) ?_
          rintro (h | h | h)
          · exact hd h
          · exact h1 h
          · exact h2 ⟨by simp [h.1], h.2.1, h.2.2⟩

/-- Witness for C7: the well-formed bound configuration `confW` constructs
without error, while `confBadW` (bind set, stream and durable both empty)
fails to construct. -/
theorem construction_validation_witness :
    ¬(∃ e, newJetStreamReaderFromConfig confW = .error e) ∧
    (∃ e, newJetStreamReaderFromConfig confBadW = .error e) := by
  constructor
  · intro h
    have := (construction_validation confW rfl
      (Or.inr ⟨30000000000, rfl⟩)).mp h
    exact absurd this (by decide)
  · exact (construction_validation confBadW rfl (Or.inl rfl)).mpr
      (Or.inr (Or.inl (by decide)))

lemma intOfUInt64_eq_bmod (n : Nat) :
    intOfUInt64 n = Int.bmod n (2 ^ 64) := by
  simp only [intOfUInt64, Int.bmod]
  norm_num
  split_ifs <;> omega

lemma headerFields_mem (h : List (String × List String)) (k : String)
    (vs : List String) (hmem : (k, vs) ∈ h) (hne : headerGet h k ≠ "") :
    MetaSet.mk k (headerGet h k) ∈ headerFields h := by
  unfold headerFields
  rw [List.mem_filter]
  exact ⟨List.mem_map.mpr ⟨(k, vs), hmem, rfl⟩, by simpa using hne⟩

/-- Counterexample to C6 as stated: `convertMessage` encodes the `uint64`
delivery counters through Go's signed `int`, so for a stream sequence of
`2 ^ 63` the emitted field is `"-9223372036854775808"` and not the decimal
encoding `"9223372036854775808"` of the value itself. -/
theorem convertMessage_wrap_counterexample :
    MetaSet.mk "nats_sequence_stream" "-9223372036854775808" ∈
      (convertMessage msgBigSeqW).metaSets ∧
    MetaSet.mk "nats_sequence_stream" (toString ((2 : Nat) ^ 63)) ∉
      (convertMessage msgBigSeqW).metaSets ∧
    toString ((2 : Nat) ^ 63) = "9223372036854775808" := by
  decide

/-- C6 amended: the envelope's payload is the raw body and the first metadata
write is always the subject field; when delivery-metadata retrieval succeeds
the writes are exactly the subject field, then six fields whose values are
the decimal encodings of the counters after two's-complement reduction to
signed 64-bit (`Int.bmod · (2 ^ 64)` — the plain decimal encoding whenever
the value is below `2 ^ 63`), the domain, and the timestamp in nanoseconds,
then the header copies; when retrieval fails the writes are exactly the
subject field then the header copies (none of the six); every non-empty
header value is copied under its original key. -/
theorem convertMessage_amended (m : NatsMsg) :
    (convertMessage m).payload = m.data ∧
    (convertMessage m).metaSets.head? = some ⟨"nats_subject", m.subject⟩ ∧
    (∀ md, m.metadata = .ok md →
      (convertMessage m).metaSets =
        ⟨"nats_subject", m.subject⟩ ::
          [MetaSet.mk "nats_sequence_stream"
              (toString (Int.bmod md.sequenceStream (2 ^ 64))),
            ⟨"nats_sequence_consumer",
              toString (Int.bmod md.sequenceConsumer (2 ^ 64))⟩,
            ⟨"nats_num_delivered",
              toString (Int.bmod md.numDelivered (2 ^ 64))⟩,
            ⟨"nats_num_pending",
              toString (Int.bmod md.numPending (2 ^ 64))⟩,
            ⟨"nats_domain", md.domain⟩,
            ⟨"nats_timestamp_unix_nano", toString md.timestampUnixNano⟩] ++
            headerFields m.header) ∧
    (∀ e, m.metadata = .error e →
      (convertMessage m).metaSets =
        ⟨"nats_subject", m.subject⟩ :: headerFields m.header) ∧
    (∀ k vs, (k, vs) ∈ m.header → headerGet m.header k ≠ "" →
      MetaSet.mk k (headerGet m.header k) ∈ (convertMessage m).metaSets) := by
  refine ⟨rfl, rfl, fun md hmd => ?_, fun e he => ?_, fun k vs hmem hne => ?_⟩
  · have h6 : metadataFields md =
        [MetaSet.mk "nats_sequence_stream"
            (toString (Int.bmod md.sequenceStream (2 ^ 64))),
          ⟨"nats_sequence_consumer",
            toString (Int.bmod md.sequenceConsumer (2 ^ 64))⟩,
          ⟨"nats_num_delivered",
            toString (Int.bmod md.numDelivered (2 ^ 64))⟩,
          ⟨"nats_num_pending",
            toString (Int.bmod md.numPending (2 ^ 64))⟩,
          ⟨"nats_domain", md.domain⟩,
          ⟨"nats_timestamp_unix_nano", toString md.timestampUnixNano⟩] := by
      simp only [metadataFields, itoa, intOfUInt64_eq_bmod]
    unfold convertMessage
    simp only [hmd, h6]
  · simp [convertMessage, he]
  · exact List.mem_cons_of_mem _
      (List.mem_append_right _ (headerFields_mem m.header k vs hmem hne))

/-- Witness for the amended C6 at concrete messages: with failed metadata
retrieval the writes are exactly the subject field and the one non-empty
header; with metadata whose stream sequence is `2 ^ 63` the six fields appear
with the wrapped encodings. -/
theorem convertMessage_amended_witness :
    (convertMessage msgNoMetaW).metaSets =
      [⟨"nats_subject", "orders.2"⟩, ⟨"Trace-Id", "abc"⟩] ∧
    MetaSet.mk "Trace-Id" "abc" ∈ (convertMessage msgNoMetaW).metaSets ∧
    (convertMessage msgBigSeqW).metaSets =
      [⟨"nats_subject", "orders.1"⟩,
        ⟨"nats_sequence_stream", "-9223372036854775808"⟩,
        ⟨"nats_sequence_consumer", "1"⟩, ⟨"nats_num_delivered", "1"⟩,
        ⟨"nats_num_pending", "0"⟩, ⟨"nats_domain", "hub"⟩,
        ⟨"nats_timestamp_unix_nano", "1700000000000000000"⟩] := by
  have h1 := convertMessage_amended msgNoMetaW
  have h2 := convertMessage_amended msgBigSeqW
  refine ⟨?_, h1.2.2.2.2 "Trace-Id" ["abc"] (by decide) (by decide), ?_⟩
  · rw [h1.2.2.2.1 (.other "not a jetstream message") rfl]
    decide
  · rw [h2.2.2.1 _ rfl]
    decide

end JetStream
